import Mathlib

/-!
Shallow embedding of `src/main.py`: a small integration service that keeps
one OAuth credential row (provider "tiktok") in a remote store, refreshes
the access token when stale, paginates the provider's video-list endpoint
and relays the accumulated list to a webhook.

Modelling conventions:
* Networked collaborators (the credential store, the provider's OAuth and
  listing endpoints, the webhook) are oracles: each embedded function takes
  the response(s) the outside world would return.
* Each stateful function returns `Except Err α × Option Row × List Event`:
  the value or the raised Python exception, the credential store afterwards,
  and the trace of outbound calls made.  Store and trace survive an error,
  as real state does when an exception is caught upstream.
* Python truthiness on optional strings (None and "" are falsy) is
  `pyTruthyStr`.
* Machine time is frozen: a single `now : Int` stands for every
  `int(time.time())` read during one call, and `updated_at` records that
  instant (the source stores the same instant as an ISO string).
* A Python JSON dict that the code only passes through (one video) is an
  opaque `Video`.
-/

/-- One outbound call made by the service. -/
inductive Event where
  | storeRead      -- Supabase select of the tokens row
  | storeUpsert    -- Supabase upsert of the tokens row
  | oauthCall      -- POST to the provider OAuth token endpoint
  | videoListCall  -- POST to the provider video-list endpoint
  | userInfoCall   -- GET to the provider user-info endpoint
  | n8nCall        -- POST to the webhook
  deriving Repr, DecidableEq, BEq

/-- Python exceptions the embedded code can raise. -/
inductive Err where
  | runtimeError : String → Err            -- RuntimeError(msg)
  | httpException : Nat → List Char → Err  -- HTTPException(status_code, detail body)
  | keyError : String → Err                -- dict KeyError on a required field
  | httpStatusError : Nat → Err            -- requests raise_for_status
  | networkError : Err                     -- requests transport-level exception
  | noResponse : Err                       -- oracle artefact: response list exhausted
  deriving Repr, DecidableEq, BEq

/-- The credential row of table `tokens` (all columns nullable but the key). -/
structure Row where
  provider : String
  account_open_id : Option String
  access_token : Option String
  refresh_token : Option String
  scope : Option String
  expires_at : Option Int
  updated_at : Option Int
  deriving Repr, DecidableEq

/-- JSON body of a provider OAuth token response (refresh or code exchange),
plus its HTTP status and raw text (used as error detail). -/
structure OAuthResponse where
  status : Nat
  body : List Char
  access_token : Option String
  refresh_token : Option String
  scope : Option String
  expires_in : Option Int
  deriving Repr, DecidableEq

/-- One video record is opaque to this code: it is only accumulated and
relayed, never inspected. -/
abbrev Video := String

/-- One response of the provider video-list endpoint, after the source's
defaulting: `videos` is `[]` when absent, `has_more` is `False` when absent,
`cursor` is `None` when absent. -/
structure PageResp where
  status : Nat
  videos : List Video
  has_more : Bool
  cursor : Option String
  deriving Repr, DecidableEq

/-- Response of the provider user-info endpoint: status and the
`data.user.open_id` field when present. -/
structure UserInfoResp where
  status : Nat
  open_id : Option String
  deriving Repr, DecidableEq

/-- Response of the webhook. -/
structure N8nResp where
  status : Nat
  text : List Char
  deriving Repr, DecidableEq

/-- The success body of `call_n8n`. -/
structure RunResult where
  n8n_status : Nat
  n8n_text : List Char
  count : Nat
  deriving Repr, DecidableEq

/-- Python truthiness of an optional string: `None` and `""` are falsy. -/
def pyTruthyStr : Option String → Bool
  | none => false
  | some s => !(s == "")

/-- The field projection requested from the video-list endpoint. -/
def VIDEO_FIELDS : List String :=
  ["id", "title", "create_time", "cover_image_url", "share_url",
   "view_count", "like_count", "comment_count", "share_count"]

/-- One column of an upsert payload: the payload carries the column exactly
when the argument was not None, and an upsert ON CONFLICT sets exactly the
carried columns, keeping the rest. -/
def mergeField {α : Type} (new old : Option α) : Option α :=
  match new with
  | some v => some v
  | none => old

/-- The row an upsert inserts into when no row exists yet: only the key is
set, every other column is NULL until the payload is applied. -/
def emptyRow : Row :=
  ⟨"tiktok", none, none, none, none, none, none⟩

/-- Embeds `upsert_tokens` of main.py: builds a payload holding `provider` plus the
non-None arguments (with `expires_at = now + expires_in - 60` when
`expires_in` is given) and `updated_at = now`, and upserts it on the key
`provider`.  Returns the row afterwards. -/
def upsert_tokens (now : Int) (store : Option Row)
    (access_token refresh_token scope : Option String)
    (expires_in : Option Int) (account_open_id : Option String) : Row :=
  let expires_at : Option Int := expires_in.map (fun e => now + e - 60)
  let base : Row := store.getD emptyRow
  ⟨"tiktok",
   mergeField account_open_id base.account_open_id,
   mergeField access_token base.access_token,
   mergeField refresh_token base.refresh_token,
   mergeField scope base.scope,
   mergeField expires_at base.expires_at,
   some now⟩

/-- Embeds `refresh_access_token` of main.py: one POST to the OAuth token endpoint;
status ≥ 400 raises HTTPException carrying status and body; otherwise
reads `access_token` (KeyError when absent), keeps the old refresh token
when none was rotated in, defaults `expires_in` to 3600, upserts and
returns the new access token. -/
def refresh_access_token (now : Int) (store : Option Row) (refresh_token : String)
    (resp : OAuthResponse) : Except Err String × Option Row × List Event :=
  if resp.status ≥ 400 then
    (Except.error (Err.httpException resp.status resp.body), store, [Event.oauthCall])
  else
    match resp.access_token with
    | none => (Except.error (Err.keyError "access_token"), store, [Event.oauthCall])
    | some access_token =>
      let new_refresh := resp.refresh_token.getD refresh_token
      let scope := resp.scope
      let expires_in : Int := resp.expires_in.getD 3600
      let store2 := upsert_tokens now store (some access_token) (some new_refresh)
        scope (some expires_in) none
      (Except.ok access_token, some store2, [Event.oauthCall, Event.storeUpsert])

/-- Embeds `get_valid_access_token` of main.py: reads the row (RuntimeError when
absent); returns the stored token when it is truthy and `now < expires_at`
(with `expires_at or 0` defaulting); otherwise refreshes when a truthy
refresh token is stored, and raises RuntimeError when not. -/
def get_valid_access_token (now : Int) (store : Option Row) (resp : OAuthResponse) :
    Except Err String × Option Row × List Event :=
  match store with
  | none =>
    (Except.error (Err.runtimeError "no tokens stored for provider tiktok"),
     none, [Event.storeRead])
  | some row =>
    let expires_at : Int := row.expires_at.getD 0
    if pyTruthyStr row.access_token ∧ now < expires_at then
      (Except.ok (row.access_token.getD ""), some row, [Event.storeRead])
    else if pyTruthyStr row.refresh_token then
      let r := refresh_access_token now (some row) (row.refresh_token.getD "") resp
      (r.1, r.2.1, Event.storeRead :: r.2.2)
    else
      (Except.error (Err.runtimeError "no refresh_token stored"),
       some row, [Event.storeRead])

/-- Embeds `api_post` of main.py: at status ≥ 400 the error branch logs and
calls `raise_for_status`, which raises only for statuses in [400, 600); a
status of 600 or above falls through that call, so the parsed JSON is
handed back as for a success. -/
def api_post (resp : PageResp) : Except Err PageResp :=
  if resp.status ≥ 400 ∧ resp.status < 600 then
    Except.error (Err.httpStatusError resp.status)
  else
    Except.ok resp

/-- The `while True` pagination loop of `fetch_all_videos`.  `pages` is the
sequence of responses the provider returns to successive requests (the
request body — `max_count`, `fields`, and the cursor when truthy — does not
influence this oracle); each iteration consumes one response, extends the
accumulator with its `videos`, and breaks when `has_more` is falsy or the
returned cursor is falsy.  An exhausted oracle is `Err.noResponse`. -/
def fetchLoop : List PageResp → Option String → List Video →
    Except Err (List Video) × List Event
  | [], _, _ => (Except.error Err.noResponse, [])
  | p :: rest, _cursor, acc =>
    match api_post p with
    | Except.error e => (Except.error e, [Event.videoListCall])
    | Except.ok page =>
      let acc2 := acc ++ page.videos
      if !page.has_more || !pyTruthyStr page.cursor then
        (Except.ok acc2, [Event.videoListCall])
      else
        let r := fetchLoop rest page.cursor acc2
        (r.1, Event.videoListCall :: r.2)

/-- Embeds `fetch_all_videos` of main.py: obtains a valid token once, then runs the
pagination loop starting with no cursor and an empty accumulator. -/
def fetch_all_videos (now : Int) (store : Option Row) (oauth : OAuthResponse)
    (pages : List PageResp) (_max_count : Nat) :
    Except Err (List Video) × Option Row × List Event :=
  let t := get_valid_access_token now store oauth
  match t.1 with
  | Except.error e => (Except.error e, t.2.1, t.2.2)
  | Except.ok _token =>
    let r := fetchLoop pages none []
    (r.1, t.2.1, t.2.2 ++ r.2)

/-- Embeds `call_n8n` of main.py: fetches all videos, POSTs them to the webhook
(`none` models a transport-level failure of that POST) and returns the
webhook status, its text truncated to 500 characters, and the item count. -/
def call_n8n (now : Int) (store : Option Row) (oauth : OAuthResponse)
    (pages : List PageResp) (n8n : Option N8nResp) :
    Except Err RunResult × Option Row × List Event :=
  let f := fetch_all_videos now store oauth pages 20
  match f.1 with
  | Except.error e => (Except.error e, f.2.1, f.2.2)
  | Except.ok videos =>
    match n8n with
    | none => (Except.error Err.networkError, f.2.1, f.2.2 ++ [Event.n8nCall])
    | some resp =>
      (Except.ok ⟨resp.status, resp.text.take 500, videos.length⟩,
       f.2.1, f.2.2 ++ [Event.n8nCall])

/-- The JSON body the `GET /` endpoint answers with. -/
inductive RunBody where
  | success : Nat → List Char → Nat → RunBody  -- ok true, n8n_status, n8n_text, count
  | failure : String → RunBody                 -- ok false, error = str(e)
  deriving Repr, DecidableEq

/-- The text `str(e)` of the caught exception, as the run endpoint embeds it. -/
def errStr : Err → String
  | Err.runtimeError m => m
  | Err.httpException s _ => "HTTPException status " ++ toString s
  | Err.keyError k => "KeyError " ++ k
  | Err.httpStatusError s => "HTTP error " ++ toString s
  | Err.networkError => "connection error"
  | Err.noResponse => "no response from provider"

/-- Embeds `run_now` of main.py (`GET /`): runs the pipeline inside a broad
try/except and degrades any exception to an `ok:false` body. -/
def run_now (now : Int) (store : Option Row) (oauth : OAuthResponse)
    (pages : List PageResp) (n8n : Option N8nResp) :
    RunBody × Option Row × List Event :=
  let c := call_n8n now store oauth pages n8n
  match c.1 with
  | Except.error e => (RunBody.failure (errStr e), c.2.1, c.2.2)
  | Except.ok r => (RunBody.success r.n8n_status r.n8n_text r.count, c.2.1, c.2.2)

/-- Embeds `oauth_callback` of main.py (`GET /oauth/tiktok/callback`): exchanges the
code (status ≥ 400 raises HTTPException with the body attached), upserts the
received tokens (a refresh token is only written when present in the
response), then best-effort fetches the user's open_id and, when the lookup
succeeded and the id is truthy, upserts it; lookup failure is swallowed.
Returns the echoed `state`. -/
def oauth_callback (now : Int) (store : Option Row) (_code : String)
    (state : Option String) (tokResp : OAuthResponse) (infoResp : UserInfoResp) :
    Except Err (Option String) × Option Row × List Event :=
  if tokResp.status ≥ 400 then
    (Except.error (Err.httpException tokResp.status tokResp.body), store, [Event.oauthCall])
  else
    match tokResp.access_token with
    | none => (Except.error (Err.keyError "access_token"), store, [Event.oauthCall])
    | some access_token =>
      let expires_in : Int := tokResp.expires_in.getD 3600
      let store2 : Row := upsert_tokens now store (some access_token)
        tokResp.refresh_token tokResp.scope (some expires_in) none
      if infoResp.status < 400 ∧ pyTruthyStr infoResp.open_id then
        let store3 := upsert_tokens now (some store2) none none none none infoResp.open_id
        (Except.ok state, some store3,
         [Event.oauthCall, Event.storeUpsert, Event.userInfoCall, Event.storeUpsert])
      else
        (Except.ok state, some store2,
         [Event.oauthCall, Event.storeUpsert, Event.userInfoCall])

/-! ## Concrete fixtures used by witnesses and counterexamples -/

/-- A fresh stored row: valid access token "A" until instant 2000. -/
def row0 : Row := ⟨"tiktok", none, some "A", some "R", some "user.info.basic", some 2000, some 500⟩

/-- An expired stored row: access token stale since instant 900. -/
def row1 : Row := ⟨"tiktok", none, some "old", some "R", none, some 900, some 500⟩

/-- A token response that would be an error if it were ever consulted. -/
def oauthFail : OAuthResponse := ⟨500, ['b'], none, none, none, none⟩

/-- A successful refresh response: token "B", expires_in 3600, no rotation. -/
def respOK : OAuthResponse := ⟨200, [], some "B", none, some "user.info.basic", some 3600⟩

/-- A redirect-status token response still carrying a parseable body. -/
def resp302 : OAuthResponse := ⟨302, [], some "B", none, none, some 3600⟩

/-- A 2xx refresh response that omits expires_in. -/
def respNoExp : OAuthResponse := ⟨200, [], some "B", none, none, none⟩

/-- A 404 token-endpoint response. -/
def resp404 : OAuthResponse := ⟨404, ['x'], none, none, none, none⟩

/-! ## Theorems -/

/-- C1: a stored credential whose access_token is present (truthy, i.e. the
code's `if access_token` test holds) and whose expires_at is strictly above
now makes get_valid_access_token return the stored token unchanged, leave
the store as it was, and call the OAuth token endpoint zero times. -/
theorem get_valid_token_fresh (now : Int) (row : Row) (resp : OAuthResponse)
    (a : String) (t : Int) (ha : row.access_token = some a) (hne : a ≠ "")
    (ht : row.expires_at = some t) (hlt : now < t) :
    get_valid_access_token now (some row) resp =
      (Except.ok a, some row, [Event.storeRead]) ∧
    (get_valid_access_token now (some row) resp).2.2.count Event.oauthCall = 0 := by
  have key : get_valid_access_token now (some row) resp =
      (Except.ok a, some row, [Event.storeRead]) := by
    simp [get_valid_access_token, pyTruthyStr, ha, hne, ht, hlt]
  exact ⟨key, by rw [key]; rfl⟩

/-- C1 witness: row0 holds token "A" valid until 2000; at now = 1000 the
token comes straight back with no OAuth call. -/
theorem get_valid_token_fresh_witness :
    get_valid_access_token 1000 (some row0) oauthFail =
      (Except.ok "A", some row0, [Event.storeRead]) ∧
    (get_valid_access_token 1000 (some row0) oauthFail).2.2.count Event.oauthCall = 0 :=
  get_valid_token_fresh 1000 row0 oauthFail "A" 2000 rfl (by decide) rfl (by decide)

/-- C4: with no stored record, or a stored record carrying no refresh_token
whose access_token is absent/empty or expired, get_valid_access_token raises
a RuntimeError (the configuration error), leaves the store unchanged and
never calls the OAuth token endpoint. -/
theorem get_valid_token_config_error (now : Int) (store : Option Row) (resp : OAuthResponse)
    (h : store = none ∨ ∃ row, store = some row ∧ row.refresh_token = none ∧
      (pyTruthyStr row.access_token = false ∨ row.expires_at.getD 0 ≤ now)) :
    (∃ m, (get_valid_access_token now store resp).1 = Except.error (Err.runtimeError m)) ∧
    (get_valid_access_token now store resp).2.1 = store ∧
    (get_valid_access_token now store resp).2.2.count Event.oauthCall = 0 := by
  rcases h with h | ⟨row, hst, hrt, hcase⟩
  · subst h
    exact ⟨⟨_, rfl⟩, rfl, rfl⟩
  · subst hst
    have hcond : ¬(pyTruthyStr row.access_token ∧ now < row.expires_at.getD 0) := by
      rcases hcase with h1 | h1
      · simp [h1]
      · rintro ⟨-, h2⟩
        omega
    have hrt2 : pyTruthyStr row.refresh_token = false := by rw [hrt]; rfl
    have key : get_valid_access_token now (some row) resp =
        (Except.error (Err.runtimeError "no refresh_token stored"),
         some row, [Event.storeRead]) := by
      simp only [get_valid_access_token]
      rw [if_neg hcond]
      simp [hrt2]
    exact ⟨⟨_, by rw [key]⟩, by rw [key], by rw [key]; rfl⟩

/-- C4 witness: an empty store at now = 0 yields the configuration error. -/
theorem get_valid_token_config_error_witness :
    (∃ m, (get_valid_access_token 0 none oauthFail).1 = Except.error (Err.runtimeError m)) ∧
    (get_valid_access_token 0 none oauthFail).2.1 = none ∧
    (get_valid_access_token 0 none oauthFail).2.2.count Event.oauthCall = 0 :=
  get_valid_token_config_error 0 none oauthFail (Or.inl rfl)

/-- C5: an upsert over an existing row changes exactly the supplied fields:
every argument passed as None leaves the stored column as it was, every
supplied argument lands (expires_in as now + expires_in - 60), and
updated_at is refreshed. -/
theorem upsert_tokens_frame (now : Int) (old : Row) (a rt sc : Option String)
    (ei : Option Int) (oi : Option String) :
    (a = none → (upsert_tokens now (some old) a rt sc ei oi).access_token = old.access_token) ∧
    (∀ v, a = some v → (upsert_tokens now (some old) a rt sc ei oi).access_token = some v) ∧
    (rt = none → (upsert_tokens now (some old) a rt sc ei oi).refresh_token = old.refresh_token) ∧
    (∀ v, rt = some v → (upsert_tokens now (some old) a rt sc ei oi).refresh_token = some v) ∧
    (sc = none → (upsert_tokens now (some old) a rt sc ei oi).scope = old.scope) ∧
    (ei = none → (upsert_tokens now (some old) a rt sc ei oi).expires_at = old.expires_at) ∧
    (∀ e, ei = some e →
      (upsert_tokens now (some old) a rt sc ei oi).expires_at = some (now + e - 60)) ∧
    (oi = none →
      (upsert_tokens now (some old) a rt sc ei oi).account_open_id = old.account_open_id) ∧
    (∀ v, oi = some v →
      (upsert_tokens now (some old) a rt sc ei oi).account_open_id = some v) ∧
    (upsert_tokens now (some old) a rt sc ei oi).updated_at = some now := by
  refine ⟨?_, ?_, ?_, ?_, ?_, ?_, ?_, ?_, ?_, ?_⟩
  · intro h; subst h; simp [upsert_tokens, mergeField]
  · intro v h; subst h; simp [upsert_tokens, mergeField]
  · intro h; subst h; simp [upsert_tokens, mergeField]
  · intro v h; subst h; simp [upsert_tokens, mergeField]
  · intro h; subst h; simp [upsert_tokens, mergeField]
  · intro h; subst h; simp [upsert_tokens, mergeField]
  · intro e h; subst h; simp [upsert_tokens, mergeField]
  · intro h; subst h; simp [upsert_tokens, mergeField]
  · intro v h; subst h; simp [upsert_tokens, mergeField]
  · simp [upsert_tokens]

/-- C5 witness: upserting only account_open_id "me" over row0 keeps
access_token "A" and writes the open id. -/
theorem upsert_tokens_frame_witness :
    (upsert_tokens 7 (some row0) none none none none (some "me")).access_token = some "A" ∧
    (upsert_tokens 7 (some row0) none none none none (some "me")).account_open_id = some "me" :=
  ⟨(upsert_tokens_frame 7 row0 none none none none (some "me")).1 rfl,
   (upsert_tokens_frame 7 row0 none none none none (some "me")).2.2.2.2.2.2.2.2.1 "me" rfl⟩

/-- C7 counterexample: a 302 token-endpoint response is non-2xx, yet the
refresh does not raise — the code only raises for status ≥ 400, so it
accepts the body and returns its access token. -/
theorem refresh_non2xx_not_raised :
    (refresh_access_token 1000 (some row0) "R" resp302).1 = Except.ok "B" ∧
    resp302.status = 302 := by
  exact ⟨rfl, rfl⟩

/-- C7 amended: every token-endpoint response with status ≥ 400 (rather than
every non-2xx response) makes the refresh raise an HTTPException carrying
that status and the response body, after exactly one request and with the
store untouched. -/
theorem refresh_error_status (now : Int) (store : Option Row) (rt : String)
    (resp : OAuthResponse) (h : resp.status ≥ 400) :
    refresh_access_token now store rt resp =
      (Except.error (Err.httpException resp.status resp.body), store, [Event.oauthCall]) := by
  simp [refresh_access_token, h]

/-- C7 witness: a 500 response with body "b" raises HTTPException 500. -/
theorem refresh_error_status_witness :
    refresh_access_token 5 (some row0) "R" oauthFail =
      (Except.error (Err.httpException 500 ['b']), some row0, [Event.oauthCall]) :=
  refresh_error_status 5 (some row0) "R" oauthFail (by decide)

/-- C10: when the token endpoint answers with an error status the refresh
raises before any upsert: the store afterwards is exactly the store before
and no store write appears in the trace. -/
theorem refresh_error_atomic (now : Int) (store : Option Row) (rt : String)
    (resp : OAuthResponse) (h : resp.status ≥ 400) :
    (refresh_access_token now store rt resp).2.1 = store ∧
    Event.storeUpsert ∉ (refresh_access_token now store rt resp).2.2 := by
  constructor
  · simp [refresh_access_token, h]
  · simp [refresh_access_token, h]

/-- C10 witness: a 404 refresh failure leaves the expired row1 untouched. -/
theorem refresh_error_atomic_witness :
    (refresh_access_token 9 (some row1) "R" resp404).2.1 = some row1 ∧
    Event.storeUpsert ∉ (refresh_access_token 9 (some row1) "R" resp404).2.2 :=
  refresh_error_atomic 9 (some row1) "R" resp404 (by decide)

/-- C2: a stored credential with expires_at ≤ now and a truthy refresh_token
makes exactly one refresh exchange; when the 2xx response carries token B
and expires_in e but no rotated refresh_token, the persisted row holds B,
keeps the old refresh_token, and has expires_at = now + e - 60; B is the
returned token. -/
theorem get_valid_token_refresh (now : Int) (row : Row) (resp : OAuthResponse)
    (R B : String) (e t : Int)
    (hrt : row.refresh_token = some R) (hR : R ≠ "")
    (ht : row.expires_at = some t) (hexp : t ≤ now)
    (hs : resp.status < 400) (hat : resp.access_token = some B)
    (hnorot : resp.refresh_token = none) (hei : resp.expires_in = some e) :
    ∃ row', (get_valid_access_token now (some row) resp).2.1 = some row' ∧
      row'.access_token = some B ∧
      row'.refresh_token = some R ∧
      row'.expires_at = some (now + e - 60) ∧
      (get_valid_access_token now (some row) resp).1 = Except.ok B ∧
      (get_valid_access_token now (some row) resp).2.2.count Event.oauthCall = 1 := by
  have hcond : ¬(pyTruthyStr row.access_token ∧ now < row.expires_at.getD 0) := by
    rintro ⟨-, h2⟩
    rw [ht] at h2
    simp only [Option.getD_some] at h2
    omega
  have hrt2 : pyTruthyStr row.refresh_token = true := by
    rw [hrt]
    simp [pyTruthyStr, hR]
  have hns : ¬(resp.status ≥ 400) := by omega
  have hgd : row.refresh_token.getD "" = R := by rw [hrt]; rfl
  have key : get_valid_access_token now (some row) resp =
      (Except.ok B,
       some ⟨"tiktok", row.account_open_id, some B, some R,
             mergeField resp.scope row.scope, some (now + e - 60), some now⟩,
       [Event.storeRead, Event.oauthCall, Event.storeUpsert]) := by
    simp only [get_valid_access_token]
    rw [if_neg hcond]
    simp only [hrt2, if_true]
    simp [refresh_access_token, hns, hat, hnorot, hei, hgd, upsert_tokens, mergeField]
  refine ⟨⟨"tiktok", row.account_open_id, some B, some R,
      mergeField resp.scope row.scope, some (now + e - 60), some now⟩,
    ?_, rfl, rfl, rfl, ?_, ?_⟩
  · rw [key]
  · rw [key]
  · rw [key]; rfl

/-- C2 witness: row1 expired at 900; at now = 1000 the 200-response respOK
with token "B" and expires_in 3600 yields one exchange, token "B", kept
refresh_token "R", and expires_at 4540. -/
theorem get_valid_token_refresh_witness :
    ∃ row', (get_valid_access_token 1000 (some row1) respOK).2.1 = some row' ∧
      row'.access_token = some "B" ∧
      row'.refresh_token = some "R" ∧
      row'.expires_at = some (1000 + 3600 - 60) ∧
      (get_valid_access_token 1000 (some row1) respOK).1 = Except.ok "B" ∧
      (get_valid_access_token 1000 (some row1) respOK).2.2.count Event.oauthCall = 1 :=
  get_valid_token_refresh 1000 row1 respOK "R" "B" 3600 900 rfl (by decide) rfl
    (by decide) (by decide) rfl rfl rfl

/-- The pagination loop on a response sequence made of continuing pages
(2xx, has_more, truthy cursor) followed by a stopping page (2xx, and
has_more false or cursor falsy): it consumes exactly those pages, in order,
and returns the accumulator extended with their videos. -/
theorem fetchLoop_ok (good : List PageResp) (stop : PageResp) (rest : List PageResp) :
    ∀ (c : Option String) (acc : List Video),
    (∀ p ∈ good, p.status < 400 ∧ p.has_more = true ∧ pyTruthyStr p.cursor = true) →
    stop.status < 400 →
    (stop.has_more = false ∨ pyTruthyStr stop.cursor = false) →
    fetchLoop (good ++ stop :: rest) c acc =
      (Except.ok (acc ++ ((good ++ [stop]).map PageResp.videos).flatten),
       List.replicate (good.length + 1) Event.videoListCall) := by
  induction good with
  | nil =>
    intro c acc _ hstat hstop
    have hns : ¬(stop.status ≥ 400 ∧ stop.status < 600) := by omega
    have hbreak : (!stop.has_more || !pyTruthyStr stop.cursor) = true := by
      rcases hstop with h | h <;> simp [h]
    simp [fetchLoop, api_post, hns, hbreak]
  | cons p ps ih =>
    intro c acc hgood hstat hstop
    obtain ⟨h1, h2, h3⟩ := hgood p (List.mem_cons_self p ps)
    have hns : ¬(p.status ≥ 400 ∧ p.status < 600) := by omega
    have hcont : (!p.has_more || !pyTruthyStr p.cursor) = false := by simp [h2, h3]
    have ih2 := ih p.cursor (acc ++ p.videos)
      (fun q hq => hgood q (List.mem_cons_of_mem p hq)) hstat hstop
    simp [fetchLoop, api_post, hns, hcont, ih2, List.replicate_succ, List.append_assoc]

/-- The pagination loop on a response sequence made of continuing pages
followed by a page whose status is in [400, 600), the range raise_for_status
raises for: it raises that page's error, whatever was accumulated. -/
theorem fetchLoop_abort (good : List PageResp) (bad : PageResp) (rest : List PageResp) :
    ∀ (c : Option String) (acc : List Video),
    (∀ p ∈ good, p.status < 400 ∧ p.has_more = true ∧ pyTruthyStr p.cursor = true) →
    400 ≤ bad.status → bad.status < 600 →
    (fetchLoop (good ++ bad :: rest) c acc).1 =
      Except.error (Err.httpStatusError bad.status) := by
  induction good with
  | nil =>
    intro c acc _ hbad hbad2
    simp [fetchLoop, api_post, hbad, hbad2]
  | cons p ps ih =>
    intro c acc hgood hbad hbad2
    obtain ⟨h1, h2, h3⟩ := hgood p (List.mem_cons_self p ps)
    have hns : ¬(p.status ≥ 400 ∧ p.status < 600) := by omega
    have hcont : (!p.has_more || !pyTruthyStr p.cursor) = false := by simp [h2, h3]
    have ih2 := ih p.cursor (acc ++ p.videos)
      (fun q hq => hgood q (List.mem_cons_of_mem p hq)) hbad hbad2
    simp [fetchLoop, api_post, hns, hcont, ih2]

/-- First page of the two-page listing scenario. -/
def pg1 : PageResp := ⟨200, ["v1", "v2"], true, some "c1"⟩

/-- Second (final) page of the two-page listing scenario. -/
def pg2 : PageResp := ⟨200, ["v3"], false, none⟩

/-- A forbidden page response. -/
def pg403 : PageResp := ⟨403, [], false, none⟩

/-- A redirect-status page response still carrying a video. -/
def page302 : PageResp := ⟨302, ["v1"], false, none⟩

/-- Counting a replicated event yields the replication length. -/
theorem count_videoListCall_replicate (n : Nat) :
    List.count Event.videoListCall (List.replicate n Event.videoListCall) = n := by
  induction n with
  | zero => rfl
  | succ k ih =>
    have hb : (Event.videoListCall == Event.videoListCall) = true := rfl
    rw [List.replicate_succ, List.count_cons]
    simp [ih, hb]

/-- C3: with a fresh stored token, the listing requests pages exactly while
the current page has has_more true and a truthy cursor: it consumes the
continuing pages and the first stopping page, makes exactly that many
list requests, and returns the concatenation of those pages' video lists
in provider order. -/
theorem fetch_all_videos_pagination (now : Int) (row : Row) (oauth : OAuthResponse)
    (a : String) (t : Int) (good : List PageResp) (stop : PageResp) (rest : List PageResp)
    (ha : row.access_token = some a) (hne : a ≠ "") (ht : row.expires_at = some t)
    (hlt : now < t)
    (hgood : ∀ p ∈ good, p.status < 400 ∧ p.has_more = true ∧ pyTruthyStr p.cursor = true)
    (hstat : stop.status < 400)
    (hstop : stop.has_more = false ∨ pyTruthyStr stop.cursor = false) :
    (fetch_all_videos now (some row) oauth (good ++ stop :: rest) 20).1 =
      Except.ok (((good ++ [stop]).map PageResp.videos).flatten) ∧
    (fetch_all_videos now (some row) oauth (good ++ stop :: rest) 20).2.2.count
      Event.videoListCall = good.length + 1 := by
  have hvalid : get_valid_access_token now (some row) oauth =
      (Except.ok a, some row, [Event.storeRead]) := by
    simp [get_valid_access_token, pyTruthyStr, ha, hne, ht, hlt]
  have hloop := fetchLoop_ok good stop rest none [] hgood hstat hstop
  have key : fetch_all_videos now (some row) oauth (good ++ stop :: rest) 20 =
      (Except.ok (((good ++ [stop]).map PageResp.videos).flatten), some row,
       Event.storeRead :: List.replicate (good.length + 1) Event.videoListCall) := by
    simp [fetch_all_videos, hvalid, hloop]
  constructor
  · rw [key]
  · rw [key]
    have hne2 : (Event.storeRead == Event.videoListCall) = false := rfl
    rw [List.count_cons]
    simp [hne2, count_videoListCall_replicate]

/-- C3 witness: pages `[v1,v2] has_more cursor "c1"` then `[v3] stop` give
exactly two requests and the list `[v1, v2, v3]`. -/
theorem fetch_all_videos_pagination_witness :
    (fetch_all_videos 1000 (some row0) oauthFail ([pg1] ++ pg2 :: []) 20).1 =
      Except.ok ((([pg1] ++ [pg2]).map PageResp.videos).flatten) ∧
    (fetch_all_videos 1000 (some row0) oauthFail ([pg1] ++ pg2 :: []) 20).2.2.count
      Event.videoListCall = [pg1].length + 1 :=
  fetch_all_videos_pagination 1000 row0 oauthFail "A" 2000 [pg1] pg2 [] rfl (by decide)
    rfl (by decide) (by decide) (by decide) (Or.inl rfl)

/-- C8 amended: with a fresh stored token, a page response whose status lies
in [400, 600) — the range raise_for_status raises for, rather than any
non-2xx — aborts the whole listing with the raise_for_status error carrying
that status: the result is that error, not a partial list. -/
theorem fetch_all_videos_abort (now : Int) (row : Row) (oauth : OAuthResponse)
    (a : String) (t : Int) (good : List PageResp) (bad : PageResp) (rest : List PageResp)
    (ha : row.access_token = some a) (hne : a ≠ "") (ht : row.expires_at = some t)
    (hlt : now < t)
    (hgood : ∀ p ∈ good, p.status < 400 ∧ p.has_more = true ∧ pyTruthyStr p.cursor = true)
    (hbad : 400 ≤ bad.status) (hbad2 : bad.status < 600) :
    (fetch_all_videos now (some row) oauth (good ++ bad :: rest) 20).1 =
      Except.error (Err.httpStatusError bad.status) := by
  have hvalid : get_valid_access_token now (some row) oauth =
      (Except.ok a, some row, [Event.storeRead]) := by
    simp [get_valid_access_token, pyTruthyStr, ha, hne, ht, hlt]
  have hloop := fetchLoop_abort good bad rest none [] hgood hbad hbad2
  have key : (fetch_all_videos now (some row) oauth (good ++ bad :: rest) 20).1 =
      (fetchLoop (good ++ bad :: rest) none []).1 := by
    simp [fetch_all_videos, hvalid]
  rw [key, hloop]

/-- C8 witness: a 403 on the first page aborts the listing with that status. -/
theorem fetch_all_videos_abort_witness :
    (fetch_all_videos 1000 (some row0) oauthFail ([] ++ pg403 :: []) 20).1 =
      Except.error (Err.httpStatusError pg403.status) :=
  fetch_all_videos_abort 1000 row0 oauthFail "A" 2000 [] pg403 [] rfl (by decide) rfl
    (by decide) (by decide) (by decide) (by decide)

/-- C8 counterexample: a 302 (non-2xx) page response does not abort the
listing — api_post only raises for status ≥ 400, so the page is accepted and
its videos are returned as a success. -/
theorem listing_non2xx_not_aborted :
    (fetch_all_videos 1000 (some row0) oauthFail [page302] 20).1 = Except.ok ["v1"] ∧
    page302.status = 302 :=
  ⟨rfl, rfl⟩

/-- C6 counterexample: a stored expires_at that is not computed from the
expires_in value of the provider's response — the 2xx refresh response
omits expires_in, yet the code writes expires_at from its client-side
default 3600: at now = 1000 it stores 1000 + 3600 - 60 = 4540. -/
theorem expires_at_written_without_expires_in :
    respNoExp.expires_in = none ∧
    (refresh_access_token 1000 none "R" respNoExp).2.1.bind Row.expires_at = some 4540 :=
  ⟨rfl, rfl⟩

/-- C6 amended: every expires_at the system writes is derived from the fresh
token response of that same exchange as now + expires_in - 60, where
expires_in is the response's value when present and the code's default 3600
when the response omits it; every other path — error paths and the
best-effort open_id upsert of the callback — leaves expires_at unchanged. -/
theorem expires_at_from_response (now : Int) (store : Option Row) (rt code : String)
    (state : Option String) (resp tokResp : OAuthResponse) (infoResp : UserInfoResp) :
    ((refresh_access_token now store rt resp).2.1.bind Row.expires_at =
        store.bind Row.expires_at ∨
      (refresh_access_token now store rt resp).2.1.bind Row.expires_at =
        some (now + resp.expires_in.getD 3600 - 60)) ∧
    ((oauth_callback now store code state tokResp infoResp).2.1.bind Row.expires_at =
        store.bind Row.expires_at ∨
      (oauth_callback now store code state tokResp infoResp).2.1.bind Row.expires_at =
        some (now + tokResp.expires_in.getD 3600 - 60)) := by
  constructor
  · by_cases h : resp.status ≥ 400
    · left
      simp [refresh_access_token, h]
    · cases hat : resp.access_token with
      | none =>
        left
        simp [refresh_access_token, h, hat]
      | some a =>
        right
        simp [refresh_access_token, h, hat, upsert_tokens, mergeField]
  · by_cases h : tokResp.status ≥ 400
    · left
      simp [oauth_callback, h]
    · cases hat : tokResp.access_token with
      | none =>
        left
        simp [oauth_callback, h, hat]
      | some a =>
        right
        by_cases h2 : infoResp.status < 400 ∧ pyTruthyStr infoResp.open_id
        · simp [oauth_callback, h, hat, h2, upsert_tokens, mergeField]
        · simp [oauth_callback, h, hat, h2, upsert_tokens, mergeField]

/-- C9: the run endpoint never propagates an exception: any error raised
anywhere in the pipeline yields an ok:false body carrying str(e), and on
success the body carries the webhook's status, its text truncated to at
most 500 characters, and the count of fetched videos. -/
theorem run_now_shape (now : Int) (store : Option Row) (oauth : OAuthResponse)
    (pages : List PageResp) (n8n : Option N8nResp) :
    (∃ e, (call_n8n now store oauth pages n8n).1 = Except.error e ∧
      (run_now now store oauth pages n8n).1 = RunBody.failure (errStr e)) ∨
    (∃ vs r, (fetch_all_videos now store oauth pages 20).1 = Except.ok vs ∧
      n8n = some r ∧
      (run_now now store oauth pages n8n).1 =
        RunBody.success r.status (r.text.take 500) vs.length ∧
      (r.text.take 500).length ≤ 500) := by
  cases hf : (fetch_all_videos now store oauth pages 20).1 with
  | error e =>
    left
    refine ⟨e, ?_, ?_⟩
    · simp [call_n8n, hf]
    · simp [run_now, call_n8n, hf]
  | ok vs =>
    cases n8n with
    | none =>
      left
      refine ⟨Err.networkError, ?_, ?_⟩
      · simp [call_n8n, hf]
      · simp [run_now, call_n8n, hf]
    | some r =>
      right
      refine ⟨vs, r, rfl, rfl, ?_, ?_⟩
      · simp [run_now, call_n8n, hf]
      · rw [List.length_take]
        exact Nat.min_le_left _ _
